import Mathlib

/-!
Verification of the inventory aggregate, stock-monitor policy and repository
of `inventory_mvp` against its specification.

The Python code is embedded shallowly:

* `Inventory` is the dataclass of `src/domain/inventory.py`; its `__post_init__`
  invariant check is the predicate `Inventory.wf` (every Python-constructed
  instance satisfies it) and the executable `Inventory.validate_invariants`.
* The in-place mutators `reserve`, `release`, `adjust` become pure functions
  `Inventory → … → Except (DomainError × Inventory) (Inventory × List Event)`.
  The error case carries the state of the object at the moment the exception is
  raised, which models Python's in-place mutation faithfully: if the
  re-validation after a mutation raised, the mutated state would survive.
* Quantities are `Int` (Python integers are unbounded).
* `str.strip()` is embedded as the executable `strip` below (leading/trailing
  whitespace removal; whitespace alphabet: space, tab, CR, LF — Python also
  strips a few rarer characters, which no claim depends on).
* Event timestamps (`datetime.utcnow` default factories) are not modelled;
  all statements about events are about their data fields.
-/

/-- Domain events of `src/domain/events.py`, minus timestamps. -/
inductive Event where
  | inventoryReserved (product_id : String) (quantity : Int)
  | inventoryReleased (product_id : String) (quantity : Int)
  | inventoryAdjusted (product_id : String) (old_quantity new_quantity : Int)
  | lowStockDetected (product_id : String) (available_quantity minimum_stock_level : Int)
  | inventoryCreated (product_id : String) (initial_quantity minimum_stock_level : Int)
  deriving DecidableEq, Repr

/-- The domain exceptions of `src/domain/exceptions.py` that the aggregate and
repository raise, each carrying its message string. -/
inductive DomainError where
  | invalidQuantity (msg : String)
  | insufficientStock (msg : String)
  | alreadyExists (msg : String)
  | notFound (msg : String)
  deriving DecidableEq, Repr

/-- Embedding of Python's `str.strip()`: drop leading and trailing
whitespace characters. -/
def strip (s : String) : String :=
  ⟨((s.data.dropWhile Char.isWhitespace).reverse.dropWhile Char.isWhitespace).reverse⟩

/-- The `Inventory` dataclass fields of `src/domain/inventory.py`. -/
structure Inventory where
  product_id : String
  total_quantity : Int
  reserved_quantity : Int
  minimum_stock_level : Int
  deriving DecidableEq, Repr

namespace Inventory

/-- The business invariants enforced by `_validate_invariants` (and hence by
`__post_init__` on every constructed instance). -/
def wf (inv : Inventory) : Prop :=
  0 ≤ inv.total_quantity ∧ 0 ≤ inv.reserved_quantity ∧
    0 ≤ inv.minimum_stock_level ∧ inv.reserved_quantity ≤ inv.total_quantity

instance (inv : Inventory) : Decidable inv.wf := by
  unfold wf; infer_instance

/-- `Inventory._validate_invariants`: the four checks, in source order. -/
def validate_invariants (inv : Inventory) : Except DomainError Unit :=
  if inv.total_quantity < 0 then
    .error (.invalidQuantity "Total quantity cannot be negative")
  else if inv.reserved_quantity < 0 then
    .error (.invalidQuantity "Reserved quantity cannot be negative")
  else if inv.minimum_stock_level < 0 then
    .error (.invalidQuantity "Minimum stock level cannot be negative")
  else if inv.reserved_quantity > inv.total_quantity then
    .error (.invalidQuantity
      ("Reserved quantity (" ++ toString inv.reserved_quantity ++
        ") cannot exceed total quantity (" ++ toString inv.total_quantity ++ ")"))
  else
    .ok ()

/-- `Inventory.available_quantity` property: total minus reserved. -/
def available_quantity (inv : Inventory) : Int :=
  inv.total_quantity - inv.reserved_quantity

/-- `Inventory.create` classmethod: input validation, construction (whose
`__post_init__` runs `_validate_invariants`), `InventoryCreated` emission and
the conditional `LowStockDetected`. -/
def create (product_id : String) (initial_quantity minimum_stock_level : Int) :
    Except DomainError (Inventory × List Event) :=
  if product_id = "" ∨ strip product_id = "" then
    .error (.invalidQuantity "Product ID cannot be empty")
  else if initial_quantity < 0 then
    .error (.invalidQuantity "Initial quantity must be non-negative")
  else if minimum_stock_level < 0 then
    .error (.invalidQuantity "Minimum stock level must be non-negative")
  else
    let inventory : Inventory :=
      { product_id := strip product_id
        total_quantity := initial_quantity
        reserved_quantity := 0
        minimum_stock_level := minimum_stock_level }
    match inventory.validate_invariants with
    | .error e => .error e
    | .ok _ =>
      let events : List Event :=
        [.inventoryCreated inventory.product_id initial_quantity minimum_stock_level]
      let events :=
        if inventory.available_quantity < inventory.minimum_stock_level then
          events ++ [.lowStockDetected inventory.product_id
            inventory.available_quantity inventory.minimum_stock_level]
        else events
      .ok (inventory, events)

/-- `Inventory.reserve`. On error the returned state is the object's state at
the time of the raise (before any mutation for the two guards, after the
mutation for a re-validation failure). -/
def reserve (inv : Inventory) (quantity : Int) :
    Except (DomainError × Inventory) (Inventory × List Event) :=
  if quantity ≤ 0 then
    .error (.invalidQuantity "Quantity must be positive", inv)
  else if quantity > inv.available_quantity then
    .error (.insufficientStock
      ("Cannot reserve " ++ toString quantity ++ " units of product " ++
        inv.product_id ++ ". Only " ++ toString inv.available_quantity ++
        " available."), inv)
  else
    let inv' := { inv with reserved_quantity := inv.reserved_quantity + quantity }
    match inv'.validate_invariants with
    | .error e => .error (e, inv')
    | .ok _ =>
      let events : List Event := [.inventoryReserved inv'.product_id quantity]
      let events :=
        if inv'.available_quantity < inv'.minimum_stock_level then
          events ++ [.lowStockDetected inv'.product_id
            inv'.available_quantity inv'.minimum_stock_level]
        else events
      .ok (inv', events)

/-- `Inventory.release`. Note: no low-stock check in the source. -/
def release (inv : Inventory) (quantity : Int) :
    Except (DomainError × Inventory) (Inventory × List Event) :=
  if quantity ≤ 0 then
    .error (.invalidQuantity "Quantity must be positive", inv)
  else if quantity > inv.reserved_quantity then
    .error (.invalidQuantity
      ("Cannot release " ++ toString quantity ++ " units of product " ++
        inv.product_id ++ ". Only " ++ toString inv.reserved_quantity ++
        " reserved."), inv)
  else
    let inv' := { inv with reserved_quantity := inv.reserved_quantity - quantity }
    match inv'.validate_invariants with
    | .error e => .error (e, inv')
    | .ok _ => .ok (inv', [.inventoryReleased inv'.product_id quantity])

/-- `Inventory.adjust`. The `reason` and `adjusted_by` arguments do not affect
state or the emitted events' data fields. -/
def adjust (inv : Inventory) (new_total_quantity : Int) (reason adjusted_by : String) :
    Except (DomainError × Inventory) (Inventory × List Event) :=
  if new_total_quantity < 0 then
    .error (.invalidQuantity "Total quantity cannot be negative", inv)
  else if new_total_quantity < inv.reserved_quantity then
    .error (.invalidQuantity
      ("New total quantity (" ++ toString new_total_quantity ++
        ") cannot be less than reserved quantity (" ++
        toString inv.reserved_quantity ++ ")"), inv)
  else
    let old_quantity := inv.total_quantity
    let inv' := { inv with total_quantity := new_total_quantity }
    match inv'.validate_invariants with
    | .error e => .error (e, inv')
    | .ok _ =>
      let events : List Event :=
        [.inventoryAdjusted inv'.product_id old_quantity new_total_quantity]
      let events :=
        if inv'.available_quantity < inv'.minimum_stock_level then
          events ++ [.lowStockDetected inv'.product_id
            inv'.available_quantity inv'.minimum_stock_level]
        else events
      .ok (inv', events)

end Inventory

/-- Is an event a `LowStockDetected`? -/
def isLowStockEvent : Event → Bool
  | .lowStockDetected _ _ _ => true
  | _ => false

/-- The `LowStockDetected` events contained in an event list. -/
def lowStockList (events : List Event) : List Event :=
  events.filter isLowStockEvent

/-- `StockLevelMonitor.apply` of
`src/application/policies/stock_monitor.py`: reacts only to
`InventoryReserved`/`InventoryAdjusted`, then checks the post-event state. -/
def StockLevelMonitor.apply (event : Event) (inventory : Inventory) : List Event :=
  match event with
  | .inventoryReserved _ _ | .inventoryAdjusted _ _ _ =>
    if inventory.available_quantity < inventory.minimum_stock_level then
      [.lowStockDetected inventory.product_id
        inventory.available_quantity inventory.minimum_stock_level]
    else []
  | _ => []

/-- One mutating aggregate call (the arguments of reserve/release/adjust). -/
inductive Op where
  | reserve (quantity : Int)
  | release (quantity : Int)
  | adjust (new_total_quantity : Int) (reason adjusted_by : String)
  deriving DecidableEq, Repr

/-- Dispatch one mutating call on the aggregate. -/
def applyOp (inv : Inventory) : Op →
    Except (DomainError × Inventory) (Inventory × List Event)
  | .reserve q => inv.reserve q
  | .release q => inv.release q
  | .adjust nt r a => inv.adjust nt r a

/-- Run a sequence of mutating calls, requiring each to succeed;
`none` as soon as one call raises. -/
def runOps (inv : Inventory) : List Op → Option Inventory
  | [] => some inv
  | op :: ops =>
    match applyOp inv op with
    | .error _ => none
    | .ok (inv', _) => runOps inv' ops

/-- The `InventoryModel` row of `src/infrastructure/database/models.py`
(primary key `product_id` plus the three quantity columns; the
`created_at`/`updated_at` timestamp columns are not modelled). -/
structure InventoryModel where
  product_id : String
  total_quantity : Int
  reserved_quantity : Int
  minimum_stock_level : Int
  deriving DecidableEq, Repr

/-- `InventoryModel.from_domain`. -/
def InventoryModel.from_domain (inventory : Inventory) : InventoryModel :=
  { product_id := inventory.product_id
    total_quantity := inventory.total_quantity
    reserved_quantity := inventory.reserved_quantity
    minimum_stock_level := inventory.minimum_stock_level }

/-- `InventoryModel.to_domain`. -/
def InventoryModel.to_domain (m : InventoryModel) : Inventory :=
  { product_id := m.product_id
    total_quantity := m.total_quantity
    reserved_quantity := m.reserved_quantity
    minimum_stock_level := m.minimum_stock_level }

/-- The `inventory` table: its rows in insertion order. `product_id` is the
primary key, so a well-formed table has no duplicate `product_id`. -/
abbrev Database := List InventoryModel

/-- `query(InventoryModel).filter_by(product_id=...).first()`. -/
def Database.firstByProductId (db : Database) (product_id : String) :
    Option InventoryModel :=
  List.find? (fun m => m.product_id = product_id) db

/-- `InventoryRepository.save` of
`src/infrastructure/database/repository.py`: update the three quantity
columns of the existing row, or add a new row from the domain aggregate. -/
def InventoryRepository.save (db : Database) (inventory : Inventory) : Database :=
  match db.firstByProductId inventory.product_id with
  | some _ =>
    List.map (fun m =>
      if m.product_id = inventory.product_id then
        { m with total_quantity := inventory.total_quantity
                 reserved_quantity := inventory.reserved_quantity
                 minimum_stock_level := inventory.minimum_stock_level }
      else m) db
  | none => db ++ [InventoryModel.from_domain inventory]

/-- Modelled from the spec: `InventoryRepository.create` is absent from
`src/infrastructure/database/repository.py`; only its integration tests
(`tests/integration/test_inventory_repository_create.py`) and the
`InventoryAlreadyExistsError` declaration exist in the repository. Spec 4.3:
"strict-insert variant; fails with `AlreadyExists` if `product_id` already
present", returning the created inventory otherwise. -/
def InventoryRepository.create (db : Database) (inventory : Inventory) :
    Except DomainError (Database × Inventory) :=
  match db.firstByProductId inventory.product_id with
  | some _ =>
    .error (.alreadyExists
      ("Inventory already exists for product " ++ inventory.product_id))
  | none => .ok (db ++ [InventoryModel.from_domain inventory], inventory)

/-- The event classes recognised as triggers by the monitor's
`isinstance(event, (InventoryReserved, InventoryAdjusted))` check. -/
def isTriggerEvent : Event → Bool
  | .inventoryReserved _ _ => true
  | .inventoryAdjusted _ _ _ => true
  | _ => false

/-- The `product_id` field every event class carries. -/
def eventProductId : Event → String
  | .inventoryReserved p _ => p
  | .inventoryReleased p _ => p
  | .inventoryAdjusted p _ _ => p
  | .lowStockDetected p _ _ => p
  | .inventoryCreated p _ _ => p

/-! ## Helper lemmas -/

theorem wf_mk (p : String) (t r m : Int)
    (h1 : 0 ≤ t) (h2 : 0 ≤ r) (h3 : 0 ≤ m) (h4 : r ≤ t) :
    Inventory.wf ⟨p, t, r, m⟩ :=
  ⟨h1, h2, h3, h4⟩

theorem strip_empty : strip "" = "" := rfl

theorem validate_invariants_eq_ok_iff_wf (inv : Inventory) :
    inv.validate_invariants = .ok () ↔ inv.wf := by
  unfold Inventory.validate_invariants Inventory.wf
  split_ifs with h1 h2 h3 h4 <;> simp_all

theorem reserve_ok_elim {inv inv' : Inventory} {q : Int} {evs : List Event}
    (h : inv.reserve q = .ok (inv', evs)) :
    0 < q ∧ q ≤ inv.available_quantity ∧
    inv' = { inv with reserved_quantity := inv.reserved_quantity + q } ∧
    inv'.validate_invariants = .ok () ∧
    evs = Event.inventoryReserved inv.product_id q ::
      (if inv'.available_quantity < inv'.minimum_stock_level then
        [Event.lowStockDetected inv'.product_id inv'.available_quantity
          inv'.minimum_stock_level]
      else []) := by
  simp only [Inventory.reserve] at h
  split_ifs at h with h1 h2 h3
  all_goals
    split at h
    · simp at h
    · rename_i u heq
      rw [Except.ok.injEq, Prod.mk.injEq] at h
      obtain ⟨hi, he⟩ := h
      cases u
      subst hi
      subst he
      refine ⟨by omega, by omega, rfl, heq, ?_⟩
      simp [h3]

theorem release_ok_elim {inv inv' : Inventory} {q : Int} {evs : List Event}
    (h : inv.release q = .ok (inv', evs)) :
    0 < q ∧ q ≤ inv.reserved_quantity ∧
    inv' = { inv with reserved_quantity := inv.reserved_quantity - q } ∧
    inv'.validate_invariants = .ok () ∧
    evs = [Event.inventoryReleased inv.product_id q] := by
  simp only [Inventory.release] at h
  split_ifs at h with h1 h2
  all_goals
    split at h
    · simp at h
    · rename_i u heq
      rw [Except.ok.injEq, Prod.mk.injEq] at h
      obtain ⟨hi, he⟩ := h
      cases u
      subst hi
      subst he
      exact ⟨by omega, by omega, rfl, heq, rfl⟩

theorem adjust_ok_elim {inv inv' : Inventory} {nt : Int} {r a : String} {evs : List Event}
    (h : inv.adjust nt r a = .ok (inv', evs)) :
    0 ≤ nt ∧ inv.reserved_quantity ≤ nt ∧
    inv' = { inv with total_quantity := nt } ∧
    inv'.validate_invariants = .ok () ∧
    evs = Event.inventoryAdjusted inv.product_id inv.total_quantity nt ::
      (if inv'.available_quantity < inv'.minimum_stock_level then
        [Event.lowStockDetected inv'.product_id inv'.available_quantity
          inv'.minimum_stock_level]
      else []) := by
  simp only [Inventory.adjust] at h
  split_ifs at h with h1 h2 h3
  all_goals
    split at h
    · simp at h
    · rename_i u heq
      rw [Except.ok.injEq, Prod.mk.injEq] at h
      obtain ⟨hi, he⟩ := h
      cases u
      subst hi
      subst he
      refine ⟨by omega, by omega, rfl, heq, ?_⟩
      simp [h3]

theorem reserve_error_elim {inv : Inventory} {q : Int} {e : DomainError} {s : Inventory}
    (hwf : inv.wf) (h : inv.reserve q = .error (e, s)) : s = inv := by
  obtain ⟨w1, w2, w3, w4⟩ := hwf
  simp only [Inventory.reserve, Inventory.available_quantity] at h
  split_ifs at h with h1 h2 h3
  · rw [Except.error.injEq, Prod.mk.injEq] at h
    exact h.2.symm
  · rw [Except.error.injEq, Prod.mk.injEq] at h
    exact h.2.symm
  all_goals
    split at h
    · rename_i e2 heq
      rw [(validate_invariants_eq_ok_iff_wf _).mpr
        (wf_mk _ _ _ _ (by omega) (by omega) (by omega) (by omega))] at heq
      exact Except.noConfusion heq
    · simp at h

theorem release_error_elim {inv : Inventory} {q : Int} {e : DomainError} {s : Inventory}
    (hwf : inv.wf) (h : inv.release q = .error (e, s)) : s = inv := by
  obtain ⟨w1, w2, w3, w4⟩ := hwf
  simp only [Inventory.release] at h
  split_ifs at h with h1 h2
  · rw [Except.error.injEq, Prod.mk.injEq] at h
    exact h.2.symm
  · rw [Except.error.injEq, Prod.mk.injEq] at h
    exact h.2.symm
  · split at h
    · rename_i e2 heq
      rw [(validate_invariants_eq_ok_iff_wf _).mpr
        (wf_mk _ _ _ _ (by omega) (by omega) (by omega) (by omega))] at heq
      exact Except.noConfusion heq
    · simp at h

theorem adjust_error_elim {inv : Inventory} {nt : Int} {r a : String}
    {e : DomainError} {s : Inventory}
    (hwf : inv.wf) (h : inv.adjust nt r a = .error (e, s)) : s = inv := by
  obtain ⟨w1, w2, w3, w4⟩ := hwf
  simp only [Inventory.adjust] at h
  split_ifs at h with h1 h2 h3
  · rw [Except.error.injEq, Prod.mk.injEq] at h
    exact h.2.symm
  · rw [Except.error.injEq, Prod.mk.injEq] at h
    exact h.2.symm
  all_goals
    split at h
    · rename_i e2 heq
      rw [(validate_invariants_eq_ok_iff_wf _).mpr
        (wf_mk _ _ _ _ (by omega) (by omega) (by omega) (by omega))] at heq
      exact Except.noConfusion heq
    · simp at h

theorem reserve_succeeds {inv : Inventory} {q : Int}
    (h1 : 0 < q) (h2 : q ≤ inv.available_quantity)
    (h3 : 0 ≤ inv.total_quantity) (h4 : 0 ≤ inv.reserved_quantity)
    (h5 : 0 ≤ inv.minimum_stock_level) :
    inv.reserve q =
      .ok ({ inv with reserved_quantity := inv.reserved_quantity + q },
        Event.inventoryReserved inv.product_id q ::
          (if inv.available_quantity - q < inv.minimum_stock_level then
            [Event.lowStockDetected inv.product_id (inv.available_quantity - q)
              inv.minimum_stock_level]
          else [])) := by
  simp only [Inventory.available_quantity] at h2 ⊢
  simp only [Inventory.reserve]
  rw [if_neg (by omega), if_neg (by simp only [Inventory.available_quantity]; omega),
    (validate_invariants_eq_ok_iff_wf _).mpr
      (wf_mk _ _ _ _ (by omega) (by omega) (by omega) (by omega))]
  simp only [Inventory.available_quantity]
  rw [show inv.total_quantity - (inv.reserved_quantity + q) =
    inv.total_quantity - inv.reserved_quantity - q by ring]
  split_ifs <;> rfl

theorem release_succeeds {inv : Inventory} {q : Int}
    (h1 : 0 < q) (h2 : q ≤ inv.reserved_quantity)
    (h3 : 0 ≤ inv.total_quantity) (h4 : 0 ≤ inv.minimum_stock_level)
    (h5 : inv.reserved_quantity ≤ inv.total_quantity) :
    inv.release q =
      .ok ({ inv with reserved_quantity := inv.reserved_quantity - q },
        [Event.inventoryReleased inv.product_id q]) := by
  simp only [Inventory.release]
  rw [if_neg (by omega), if_neg (by omega),
    (validate_invariants_eq_ok_iff_wf _).mpr
      (wf_mk _ _ _ _ (by omega) (by omega) (by omega) (by omega))]

theorem adjust_succeeds {inv : Inventory} {nt : Int} {r a : String}
    (h1 : 0 ≤ nt) (h2 : inv.reserved_quantity ≤ nt)
    (h3 : 0 ≤ inv.reserved_quantity) (h4 : 0 ≤ inv.minimum_stock_level) :
    inv.adjust nt r a =
      .ok ({ inv with total_quantity := nt },
        Event.inventoryAdjusted inv.product_id inv.total_quantity nt ::
          (if nt - inv.reserved_quantity < inv.minimum_stock_level then
            [Event.lowStockDetected inv.product_id (nt - inv.reserved_quantity)
              inv.minimum_stock_level]
          else [])) := by
  simp only [Inventory.adjust]
  rw [if_neg (by omega), if_neg (by omega),
    (validate_invariants_eq_ok_iff_wf _).mpr
      (wf_mk _ _ _ _ (by omega) (by omega) (by omega) (by omega))]
  simp only [Inventory.available_quantity]
  split_ifs <;> rfl

theorem create_eq (pid : String) (iq msl : Int) :
    Inventory.create pid iq msl =
      if pid = "" ∨ strip pid = "" then
        .error (.invalidQuantity "Product ID cannot be empty")
      else if iq < 0 then
        .error (.invalidQuantity "Initial quantity must be non-negative")
      else if msl < 0 then
        .error (.invalidQuantity "Minimum stock level must be non-negative")
      else
        .ok (⟨strip pid, iq, 0, msl⟩,
          Event.inventoryCreated (strip pid) iq msl ::
            (if iq < msl then [Event.lowStockDetected (strip pid) iq msl]
            else [])) := by
  simp only [Inventory.create, Inventory.available_quantity, sub_zero]
  split_ifs with h1 h2 h3 h4
  all_goals try rfl
  all_goals
    rw [(validate_invariants_eq_ok_iff_wf _).mpr
      (wf_mk _ _ _ _ (by omega) (by omega) (by omega) (by omega))]
    try rfl

theorem runOps_wf {inv : Inventory} {ops : List Op} {inv' : Inventory}
    (hwf : inv.wf) (h : runOps inv ops = some inv') : inv'.wf := by
  induction ops generalizing inv with
  | nil =>
    simp only [runOps, Option.some.injEq] at h
    exact h ▸ hwf
  | cons op ops ih =>
    simp only [runOps] at h
    split at h
    · exact absurd h (by simp)
    · rename_i p heq
      cases op with
      | reserve q =>
        simp only [applyOp] at heq
        exact ih ((validate_invariants_eq_ok_iff_wf _).mp (reserve_ok_elim heq).2.2.2.1) h
      | release q =>
        simp only [applyOp] at heq
        exact ih ((validate_invariants_eq_ok_iff_wf _).mp (release_ok_elim heq).2.2.2.1) h
      | adjust nt r a =>
        simp only [applyOp] at heq
        exact ih ((validate_invariants_eq_ok_iff_wf _).mp (adjust_ok_elim heq).2.2.2.1) h

/-! ## Claims -/

/-- C2: every aggregate produced by the `create` factory satisfies, after any
finite sequence of successful `reserve`/`release`/`adjust` calls,
`total_quantity ≥ 0`, `reserved_quantity ≥ 0`, `minimum_stock_level ≥ 0` and
`reserved_quantity ≤ total_quantity`; quantifying over all successful
sequences covers every intermediate observable state as well. -/
theorem claim2_invariant_closure (pid : String) (iq msl : Int)
    (inv0 inv1 : Inventory) (evs0 : List Event) (ops : List Op)
    (h0 : Inventory.create pid iq msl = .ok (inv0, evs0))
    (h : runOps inv0 ops = some inv1) :
    0 ≤ inv1.total_quantity ∧ 0 ≤ inv1.reserved_quantity ∧
    0 ≤ inv1.minimum_stock_level ∧ inv1.reserved_quantity ≤ inv1.total_quantity := by
  have hwf0 : inv0.wf := by
    rw [create_eq] at h0
    split_ifs at h0 with h1 h2 h3 h4
    all_goals
      rw [Except.ok.injEq, Prod.mk.injEq] at h0
      rw [← h0.1]
      exact wf_mk _ _ _ _ (by omega) (by omega) (by omega) (by omega)
  exact runOps_wf hwf0 h

/-- C2 witness: create("P1",100,10), then reserve 5, release 2, adjust 50. -/
theorem claim2_witness :
    0 ≤ (⟨"P1", 50, 3, 10⟩ : Inventory).total_quantity ∧
    0 ≤ (⟨"P1", 50, 3, 10⟩ : Inventory).reserved_quantity ∧
    0 ≤ (⟨"P1", 50, 3, 10⟩ : Inventory).minimum_stock_level ∧
    (⟨"P1", 50, 3, 10⟩ : Inventory).reserved_quantity ≤
      (⟨"P1", 50, 3, 10⟩ : Inventory).total_quantity :=
  claim2_invariant_closure "P1" 100 10 ⟨"P1", 100, 0, 10⟩ ⟨"P1", 50, 3, 10⟩
    [Event.inventoryCreated "P1" 100 10]
    [.reserve 5, .release 2, .adjust 50 "recount" "ops"] (by rfl) (by rfl)

/-- C3: when `reserve`, `release` or `adjust` raises, a well-formed aggregate
is left exactly as it was before the call (all four fields unchanged). -/
theorem claim3_failed_mutator_preserves_state {inv : Inventory} {op : Op}
    {e : DomainError} {s : Inventory} (hwf : inv.wf)
    (h : applyOp inv op = .error (e, s)) : s = inv := by
  cases op with
  | reserve q =>
    simp only [applyOp] at h
    exact reserve_error_elim hwf h
  | release q =>
    simp only [applyOp] at h
    exact release_error_elim hwf h
  | adjust nt r a =>
    simp only [applyOp] at h
    exact adjust_error_elim hwf h

/-- C3 witness: reserve(20) on total=100, reserved=90 raises InsufficientStock
and the carried state is the unchanged aggregate. -/
theorem claim3_witness :
    applyOp ⟨"P", 100, 90, 0⟩ (.reserve 20) =
      .error (.insufficientStock
        "Cannot reserve 20 units of product P. Only 10 available.",
        ⟨"P", 100, 90, 0⟩) ∧
    (⟨"P", 100, 90, 0⟩ : Inventory) = ⟨"P", 100, 90, 0⟩ :=
  ⟨rfl, @claim3_failed_mutator_preserves_state ⟨"P", 100, 90, 0⟩ (.reserve 20)
    (.insufficientStock "Cannot reserve 20 units of product P. Only 10 available.")
    ⟨"P", 100, 90, 0⟩ (by decide) rfl⟩

/-- C5: on a well-formed aggregate, a successful reserve(q) followed by
release(q) succeeds and restores `reserved_quantity` and
`available_quantity` to their pre-reserve values. -/
theorem claim5_reserve_release_roundtrip {inv : Inventory} {q : Int}
    {inv1 : Inventory} {evs1 : List Event} (hwf : inv.wf)
    (h : inv.reserve q = .ok (inv1, evs1)) :
    ∃ inv2 evs2, inv1.release q = .ok (inv2, evs2) ∧
      inv2.reserved_quantity = inv.reserved_quantity ∧
      inv2.available_quantity = inv.available_quantity := by
  obtain ⟨w1, w2, w3, w4⟩ := hwf
  obtain ⟨hq, hle, hinv1, hval, hevs⟩ := reserve_ok_elim h
  subst hinv1
  refine ⟨_, _, release_succeeds hq (by simp; omega) (by simp; omega) (by simp; omega)
    (by simp only [Inventory.available_quantity] at hle; simp; omega), ?_, ?_⟩
  · simp
  · simp [Inventory.available_quantity]
    try omega

/-- C5 witness: reserve 20 on total=100, reserved=40, then release 20. -/
theorem claim5_witness :
    Inventory.reserve ⟨"P", 100, 40, 0⟩ 20 =
      .ok (⟨"P", 100, 60, 0⟩, [Event.inventoryReserved "P" 20]) ∧
    Inventory.release ⟨"P", 100, 60, 0⟩ 20 =
      .ok (⟨"P", 100, 40, 0⟩, [Event.inventoryReleased "P" 20]) := by
  have hr := @claim5_reserve_release_roundtrip ⟨"P", 100, 40, 0⟩ 20
    ⟨"P", 100, 60, 0⟩ [Event.inventoryReserved "P" 20] (by decide) (by rfl)
  exact ⟨by rfl, by rfl⟩

/-- C6: on a well-formed aggregate with positive availability,
reserve(available) succeeds leaving availability exactly 0,
reserve(available+1) raises InsufficientStock, and reserve(q) for any q ≤ 0
raises InvalidQuantity; in both failure cases the carried state is the
unchanged aggregate. -/
theorem claim6_reserve_boundaries (inv : Inventory) (hwf : inv.wf)
    (hpos : 0 < inv.available_quantity) :
    (∃ inv' evs, inv.reserve inv.available_quantity = .ok (inv', evs) ∧
      inv'.available_quantity = 0) ∧
    (∃ msg, inv.reserve (inv.available_quantity + 1) =
      .error (.insufficientStock msg, inv)) ∧
    (∀ q, q ≤ 0 → inv.reserve q =
      .error (.invalidQuantity "Quantity must be positive", inv)) := by
  obtain ⟨w1, w2, w3, w4⟩ := hwf
  refine ⟨⟨_, _, reserve_succeeds hpos le_rfl w1 w2 w3, ?_⟩, ?_,
    fun q hq => ?_⟩
  · simp [Inventory.available_quantity]
    try omega
  · exact ⟨_, by simp only [Inventory.reserve]
                 rw [if_neg (by omega), if_pos (by omega)]⟩
  · simp only [Inventory.reserve]
    rw [if_pos hq]

/-- C6 witness: total=100, reserved=90 (available 10). -/
theorem claim6_witness :
    Inventory.reserve ⟨"P", 100, 90, 0⟩ 10 =
      .ok (⟨"P", 100, 100, 0⟩, [Event.inventoryReserved "P" 10]) ∧
    Inventory.reserve ⟨"P", 100, 90, 0⟩ 11 =
      .error (.insufficientStock
        "Cannot reserve 11 units of product P. Only 10 available.",
        ⟨"P", 100, 90, 0⟩) ∧
    Inventory.reserve ⟨"P", 100, 90, 0⟩ 0 =
      .error (.invalidQuantity "Quantity must be positive", ⟨"P", 100, 90, 0⟩) := by
  have hb := claim6_reserve_boundaries ⟨"P", 100, 90, 0⟩ (by decide) (by decide)
  exact ⟨by rfl, by rfl, hb.2.2 0 (by decide)⟩

/-- C7: on a well-formed aggregate, adjust(x) raises InvalidQuantity (state
unchanged) for every x below `reserved_quantity` — which covers every x < 0 —
and succeeds at x = reserved_quantity leaving availability exactly 0; every
successful adjust sets `total_quantity` to x and its first event is
`InventoryAdjusted` recording the old and new totals. -/
theorem claim7_adjust_floor (inv : Inventory) (reason adjusted_by : String)
    (hwf : inv.wf) :
    (∀ x, x < inv.reserved_quantity →
      ∃ msg, inv.adjust x reason adjusted_by =
        .error (.invalidQuantity msg, inv)) ∧
    (∃ inv' evs, inv.adjust inv.reserved_quantity reason adjusted_by =
        .ok (inv', evs) ∧ inv'.available_quantity = 0) ∧
    (∀ x inv' evs, inv.adjust x reason adjusted_by = .ok (inv', evs) →
      inv'.total_quantity = x ∧
      evs.head? = some (.inventoryAdjusted inv.product_id inv.total_quantity x)) := by
  obtain ⟨w1, w2, w3, w4⟩ := hwf
  refine ⟨fun x hx => ?_, ⟨_, _, adjust_succeeds w2 le_rfl w2 w3, ?_⟩,
    fun x inv' evs h => ?_⟩
  · by_cases hx0 : x < 0
    · exact ⟨_, by simp only [Inventory.adjust]; rw [if_pos hx0]⟩
    · exact ⟨_, by simp only [Inventory.adjust]; rw [if_neg hx0, if_pos hx]⟩
  · simp [Inventory.available_quantity]
  · obtain ⟨h1, h2, hinv', hval, hevs⟩ := adjust_ok_elim h
    subst hinv'
    subst hevs
    exact ⟨by simp, by simp⟩

/-- C7 witness: total=100, reserved=50: adjust(40) raises InvalidQuantity with
state unchanged, adjust(50) succeeds with availability 0. -/
theorem claim7_witness :
    Inventory.adjust ⟨"P", 100, 50, 0⟩ 40 "Physical count" "ops" =
      .error (.invalidQuantity
        "New total quantity (40) cannot be less than reserved quantity (50)",
        ⟨"P", 100, 50, 0⟩) ∧
    Inventory.adjust ⟨"P", 100, 50, 0⟩ 50 "Physical count" "ops" =
      .ok (⟨"P", 50, 50, 0⟩, [Event.inventoryAdjusted "P" 100 50]) := by
  have hf := claim7_adjust_floor ⟨"P", 100, 50, 0⟩ "Physical count" "ops" (by decide)
  exact ⟨by rfl, by rfl⟩

/-- C1 counterexample: the claim quantifies over `release` too, but a
successful release(1) on total=5, reserved=5, minimum=20 leaves the
post-mutation availability 1 < 20 while emitting no `LowStockDetected`
event — `release` never re-checks low stock in the source. -/
theorem claim1_counterexample :
    Inventory.release ⟨"P", 5, 5, 20⟩ 1 =
      .ok (⟨"P", 5, 4, 20⟩, [Event.inventoryReleased "P" 1]) ∧
    Inventory.available_quantity ⟨"P", 5, 4, 20⟩ <
      (⟨"P", 5, 4, 20⟩ : Inventory).minimum_stock_level ∧
    lowStockList [Event.inventoryReleased "P" 1] = [] :=
  ⟨rfl, by decide, rfl⟩

/-- C1 amended: for every successful `reserve` or `adjust` call the returned
event list contains a `LowStockDetected` — carrying exactly the post-mutation
`available_quantity` and the `minimum_stock_level` — if and only if the
post-mutation available quantity is strictly below `minimum_stock_level`;
a successful `release` never emits a `LowStockDetected` event. -/
theorem claim1_low_stock_emission (inv : Inventory) (q nt : Int)
    (reason adjusted_by : String) :
    (∀ inv' evs, inv.reserve q = .ok (inv', evs) →
      lowStockList evs =
        (if inv'.available_quantity < inv'.minimum_stock_level then
          [Event.lowStockDetected inv'.product_id inv'.available_quantity
            inv'.minimum_stock_level]
        else [])) ∧
    (∀ inv' evs, inv.adjust nt reason adjusted_by = .ok (inv', evs) →
      lowStockList evs =
        (if inv'.available_quantity < inv'.minimum_stock_level then
          [Event.lowStockDetected inv'.product_id inv'.available_quantity
            inv'.minimum_stock_level]
        else [])) ∧
    (∀ inv' evs, inv.release q = .ok (inv', evs) → lowStockList evs = []) := by
  refine ⟨fun inv' evs h => ?_, fun inv' evs h => ?_, fun inv' evs h => ?_⟩
  · obtain ⟨_, _, _, _, hevs⟩ := reserve_ok_elim h
    subst hevs
    by_cases hc : inv'.available_quantity < inv'.minimum_stock_level
    · simp [lowStockList, isLowStockEvent, hc]
    · simp [lowStockList, isLowStockEvent, hc]
  · obtain ⟨_, _, _, _, hevs⟩ := adjust_ok_elim h
    subst hevs
    by_cases hc : inv'.available_quantity < inv'.minimum_stock_level
    · simp [lowStockList, isLowStockEvent, hc]
    · simp [lowStockList, isLowStockEvent, hc]
  · obtain ⟨_, _, _, _, hevs⟩ := release_ok_elim h
    subst hevs
    rfl

/-- C1 witness: reserve(5) on total=50, reserved=28, minimum=20 gives
available 17 < 20 and exactly one LowStockDetected(17, 20). -/
theorem claim1_witness :
    lowStockList [Event.inventoryReserved "P" 5, Event.lowStockDetected "P" 17 20] =
      [Event.lowStockDetected "P" 17 20] :=
  ((claim1_low_stock_emission ⟨"P", 50, 28, 20⟩ 5 0 "" "").1
    ⟨"P", 50, 33, 20⟩ _ rfl).trans (by decide)

/-- C4: `create` fails — always with InvalidQuantity — exactly when the
product id strips to the empty string (covering empty and whitespace-only
inputs), or the initial quantity is negative, or the minimum stock level is
negative; on success the aggregate has `reserved_quantity = 0` and
`total_quantity = initial_quantity`, and the event list is
`InventoryCreated` first, followed by a `LowStockDetected` exactly when
`available_quantity < minimum_stock_level` (strict). -/
theorem claim4_create_contract (pid : String) (iq msl : Int) :
    ((∃ msg, Inventory.create pid iq msl = .error (.invalidQuantity msg)) ↔
      (strip pid = "" ∨ iq < 0 ∨ msl < 0)) ∧
    (∀ inv evs, Inventory.create pid iq msl = .ok (inv, evs) →
      inv.reserved_quantity = 0 ∧ inv.total_quantity = iq ∧
      evs = Event.inventoryCreated inv.product_id iq msl ::
        (if inv.available_quantity < inv.minimum_stock_level then
          [Event.lowStockDetected inv.product_id inv.available_quantity
            inv.minimum_stock_level]
        else [])) := by
  rw [create_eq]
  by_cases h1 : pid = "" ∨ strip pid = ""
  · rw [if_pos h1]
    refine ⟨⟨fun _ => ?_, fun _ => ⟨_, rfl⟩⟩, fun inv evs h => by simp at h⟩
    rcases h1 with h1 | h1
    · subst h1
      exact Or.inl strip_empty
    · exact Or.inl h1
  · rw [if_neg h1]
    by_cases h2 : iq < 0
    · rw [if_pos h2]
      exact ⟨⟨fun _ => Or.inr (Or.inl h2), fun _ => ⟨_, rfl⟩⟩,
        fun inv evs h => by simp at h⟩
    · rw [if_neg h2]
      by_cases h3 : msl < 0
      · rw [if_pos h3]
        exact ⟨⟨fun _ => Or.inr (Or.inr h3), fun _ => ⟨_, rfl⟩⟩,
          fun inv evs h => by simp at h⟩
      · rw [if_neg h3]
        refine ⟨⟨fun hex => ?_, fun hc => ?_⟩, fun inv evs h => ?_⟩
        · obtain ⟨msg, hmsg⟩ := hex
          exact absurd hmsg (by simp)
        · rcases hc with hc | hc | hc
          · exact absurd (Or.inr hc) h1
          · exact absurd hc h2
          · exact absurd hc h3
        · rw [Except.ok.injEq, Prod.mk.injEq] at h
          obtain ⟨hi, he⟩ := h
          subst hi
          subst he
          refine ⟨rfl, rfl, ?_⟩
          simp [Inventory.available_quantity]

/-- C4 witness: create("P2", 5, 20) succeeds with reserved 0, total 5, and
events [InventoryCreated, LowStockDetected(available=5, min=20)]. -/
theorem claim4_witness :
    (⟨"P2", 5, 0, 20⟩ : Inventory).reserved_quantity = 0 ∧
    (⟨"P2", 5, 0, 20⟩ : Inventory).total_quantity = 5 ∧
    [Event.inventoryCreated "P2" 5 20, Event.lowStockDetected "P2" 5 20] =
      Event.inventoryCreated (⟨"P2", 5, 0, 20⟩ : Inventory).product_id 5 20 ::
        (if (⟨"P2", 5, 0, 20⟩ : Inventory).available_quantity <
            (⟨"P2", 5, 0, 20⟩ : Inventory).minimum_stock_level then
          [Event.lowStockDetected (⟨"P2", 5, 0, 20⟩ : Inventory).product_id
            (⟨"P2", 5, 0, 20⟩ : Inventory).available_quantity
            (⟨"P2", 5, 0, 20⟩ : Inventory).minimum_stock_level]
        else []) :=
  (claim4_create_contract "P2" 5 20).2 ⟨"P2", 5, 0, 20⟩
    [Event.inventoryCreated "P2" 5 20, Event.lowStockDetected "P2" 5 20] rfl

/-- C10: whenever the product id strips to a non-empty string (and the
quantity inputs are valid), `create` succeeds, the aggregate's `product_id`
is the stripped input — so inputs differing only in surrounding whitespace
yield the same identity — and every emitted event carries the stripped id. -/
theorem claim10_product_id_stripped (pid : String) (iq msl : Int)
    (hpid : strip pid ≠ "") (hiq : 0 ≤ iq) (hmsl : 0 ≤ msl) :
    ∃ inv evs, Inventory.create pid iq msl = .ok (inv, evs) ∧
      inv.product_id = strip pid ∧
      ∀ e ∈ evs, eventProductId e = strip pid := by
  rw [create_eq,
    if_neg (by
      push_neg
      exact ⟨fun hp => hpid (by rw [hp]; exact strip_empty), hpid⟩),
    if_neg (by omega), if_neg (by omega)]
  refine ⟨_, _, rfl, rfl, fun e he => ?_⟩
  by_cases hc : iq < msl
  · rw [if_pos hc] at he
    simp only [List.mem_cons, List.mem_singleton, List.not_mem_nil,
      or_false] at he
    rcases he with he | he <;> subst he <;> rfl
  · rw [if_neg hc] at he
    simp only [List.mem_cons, List.not_mem_nil, or_false] at he
    subst he
    rfl

/-- C10 witness: "  P7 " strips to "P7". -/
theorem claim10_witness :
    Inventory.create "  P7 " 5 20 =
      .ok (⟨"P7", 5, 0, 20⟩,
        [Event.inventoryCreated "P7" 5 20, Event.lowStockDetected "P7" 5 20]) ∧
    (⟨"P7", 5, 0, 20⟩ : Inventory).product_id = strip "  P7 " := by
  have h := claim10_product_id_stripped "  P7 " 5 20 (by decide) (by decide)
    (by decide)
  exact ⟨by rfl, by decide⟩

/-- C8: `StockLevelMonitor.apply` returns the single `LowStockDetected`
(with the post-event availability and minimum) exactly when the trigger is an
`InventoryReserved` or `InventoryAdjusted` and the inventory is below
minimum, and `[]` otherwise (in particular for `InventoryReleased`,
`InventoryCreated` and `LowStockDetected` triggers); and for every
successful `reserve`/`adjust` call, applying the monitor to the call's
primary event and post state reproduces exactly the `LowStockDetected`
events the call emitted inline. -/
theorem claim8_monitor_policy_equivalence (event : Event) (inv : Inventory)
    (q nt : Int) (reason adjusted_by : String) :
    (StockLevelMonitor.apply event inv =
      (if isTriggerEvent event = true ∧
          inv.available_quantity < inv.minimum_stock_level then
        [Event.lowStockDetected inv.product_id inv.available_quantity
          inv.minimum_stock_level]
      else [])) ∧
    (∀ inv' evs e, inv.reserve q = .ok (inv', evs) → evs.head? = some e →
      StockLevelMonitor.apply e inv' = lowStockList evs) ∧
    (∀ inv' evs e, inv.adjust nt reason adjusted_by = .ok (inv', evs) →
      evs.head? = some e →
      StockLevelMonitor.apply e inv' = lowStockList evs) := by
  refine ⟨?_, fun inv' evs e h hh => ?_, fun inv' evs e h hh => ?_⟩
  · cases event <;>
      simp [StockLevelMonitor.apply, isTriggerEvent]
  · obtain ⟨_, _, _, _, hevs⟩ := reserve_ok_elim h
    subst hevs
    rw [List.head?_cons, Option.some.injEq] at hh
    subst hh
    by_cases hc : inv'.available_quantity < inv'.minimum_stock_level
    · simp [StockLevelMonitor.apply, lowStockList, isLowStockEvent, hc]
    · simp [StockLevelMonitor.apply, lowStockList, isLowStockEvent, hc]
  · obtain ⟨_, _, _, _, hevs⟩ := adjust_ok_elim h
    subst hevs
    rw [List.head?_cons, Option.some.injEq] at hh
    subst hh
    by_cases hc : inv'.available_quantity < inv'.minimum_stock_level
    · simp [StockLevelMonitor.apply, lowStockList, isLowStockEvent, hc]
    · simp [StockLevelMonitor.apply, lowStockList, isLowStockEvent, hc]

/-- C8 witness: reserve(5) on total=50, reserved=28, minimum=20; the monitor
applied to the InventoryReserved trigger and the post state reproduces the
inline LowStockDetected. -/
theorem claim8_witness :
    StockLevelMonitor.apply (.inventoryReserved "P" 5) ⟨"P", 50, 33, 20⟩ =
      lowStockList
        [Event.inventoryReserved "P" 5, Event.lowStockDetected "P" 17 20] :=
  (claim8_monitor_policy_equivalence (.inventoryReserved "P" 5)
    ⟨"P", 50, 28, 20⟩ 5 0 "" "").2.1 ⟨"P", 50, 33, 20⟩
    [Event.inventoryReserved "P" 5, Event.lowStockDetected "P" 17 20]
    (.inventoryReserved "P" 5) rfl rfl

/-- C9 (repository `create` modelled from the spec — the method is absent
from `repository.py`, only its tests and the `InventoryAlreadyExistsError`
declaration exist): `create` is a strict insert — it fails with
`AlreadyExists` whenever a row with the same `product_id` is present and
appends the new row otherwise — while `save` is an upsert: it inserts the
row when absent, and when present updates `total_quantity`,
`reserved_quantity` and `minimum_stock_level` of the matching row in place,
leaving row count and all other rows unchanged. -/
theorem claim9_repository_create_strict (db : Database) (inventory : Inventory) :
    ((∃ m ∈ db, m.product_id = inventory.product_id) →
      ∃ msg, InventoryRepository.create db inventory =
        .error (.alreadyExists msg)) ∧
    ((∀ m ∈ db, m.product_id ≠ inventory.product_id) →
      InventoryRepository.create db inventory =
        .ok (db ++ [InventoryModel.from_domain inventory], inventory)) ∧
    ((∀ m ∈ db, m.product_id ≠ inventory.product_id) →
      InventoryRepository.save db inventory =
        db ++ [InventoryModel.from_domain inventory]) ∧
    ((∃ m ∈ db, m.product_id = inventory.product_id) →
      (InventoryRepository.save db inventory).length = db.length ∧
      ∀ m ∈ InventoryRepository.save db inventory,
        (m.product_id = inventory.product_id →
          m = InventoryModel.from_domain inventory) ∧
        (m.product_id ≠ inventory.product_id → m ∈ db)) := by
  have hnone : (∀ m ∈ db, m.product_id ≠ inventory.product_id) →
      db.firstByProductId inventory.product_id = none := by
    intro hall
    rw [Database.firstByProductId, List.find?_eq_none]
    intro m hm
    simpa using hall m hm
  have hsome : (∃ m ∈ db, m.product_id = inventory.product_id) →
      ∃ m0, db.firstByProductId inventory.product_id = some m0 := by
    intro ⟨m, hm, hpid⟩
    rcases heq : db.firstByProductId inventory.product_id with _ | m0
    · rw [Database.firstByProductId, List.find?_eq_none] at heq
      exact absurd hpid (by simpa using heq m hm)
    · exact ⟨m0, rfl⟩
  refine ⟨fun hex => ?_, fun hall => ?_, fun hall => ?_, fun hex => ?_⟩
  · obtain ⟨m0, heq⟩ := hsome hex
    exact ⟨_, by rw [InventoryRepository.create, heq]⟩
  · rw [InventoryRepository.create, hnone hall]
  · rw [InventoryRepository.save, hnone hall]
  · obtain ⟨m0, heq⟩ := hsome hex
    rw [InventoryRepository.save, heq]
    refine ⟨List.length_map _ _, fun m hm => ?_⟩
    rw [List.mem_map] at hm
    obtain ⟨m1, hm1, hfm⟩ := hm
    by_cases hp : m1.product_id = inventory.product_id
    · rw [if_pos hp] at hfm
      subst hfm
      constructor
      · intro _
        rw [InventoryModel.from_domain, hp]
      · intro hne
        exact absurd hp hne
    · rw [if_neg hp] at hfm
      subst hfm
      exact ⟨fun hcon => absurd hcon hp, fun _ => hm1⟩

/-- C9 witness: a one-row table for product "A": strict create on "A" fails
with AlreadyExists; save updates the row in place. -/
theorem claim9_witness :
    (∃ msg, InventoryRepository.create [⟨"A", 1, 0, 0⟩] ⟨"A", 5, 2, 1⟩ =
      .error (.alreadyExists msg)) ∧
    InventoryRepository.create [⟨"B", 1, 0, 0⟩] ⟨"A", 5, 2, 1⟩ =
      .ok ([⟨"B", 1, 0, 0⟩] ++ [InventoryModel.from_domain ⟨"A", 5, 2, 1⟩],
        ⟨"A", 5, 2, 1⟩) :=
  ⟨(claim9_repository_create_strict [⟨"A", 1, 0, 0⟩] ⟨"A", 5, 2, 1⟩).1
      ⟨⟨"A", 1, 0, 0⟩, by decide, by decide⟩,
    (claim9_repository_create_strict [⟨"B", 1, 0, 0⟩] ⟨"A", 5, 2, 1⟩).2.1
      (by decide)⟩
